import Mathlib

/-!
Shallow embedding of the two CKAN mixin variants found in
src/src/mixins/ckan.js.  The file concatenates an older variant
(lines 1-163, modelled in namespace V1) and a newer variant
(lines 163-482, modelled in namespace V2).

JavaScript objects built by the mixins are modelled as ordered association
lists of string keys to atomic values.  Property assignment replaces the
first entry with the key in place or appends a new entry, property deletion
removes the key, and property read returns the first value or none; this
matches JavaScript object semantics for the duplicate-free objects the
program manipulates.  Every function that mutates its argument object in
place is modelled by returning the new value of that object, which is the
value the caller observes through its alias after the call.
-/

namespace CkanJS

/-- Atomic JavaScript values appearing in the mixin payloads. -/
inductive JsVal where
  | str (s : String)
  | bool (b : Bool)
  | num (n : Int)
  | null
  | undef
  deriving DecidableEq, Repr

/-- Property read on an association list: value of the first entry with the
given key, none when the key is absent. -/
def getL : List (String × JsVal) → String → Option JsVal
  | [], _ => none
  | p :: t, k => if p.1 = k then some p.2 else getL t k

/-- Property assignment on an association list: replace the first entry with
the key in place, or append a new entry at the end, as JavaScript does. -/
def setL : List (String × JsVal) → String → JsVal → List (String × JsVal)
  | [], k, v => [(k, v)]
  | p :: t, k, v => if p.1 = k then (k, v) :: t else p :: setL t k v

/-- Property deletion on an association list. -/
def delL : List (String × JsVal) → String → List (String × JsVal)
  | [], _ => []
  | p :: t, k => if p.1 = k then delL t k else p :: delL t k

/-- A JavaScript object: an ordered list of key-value entries. -/
structure Obj where
  entries : List (String × JsVal)
  deriving DecidableEq, Repr

/-- Property read returning an optional value. -/
def Obj.get (o : Obj) (k : String) : Option JsVal := getL o.entries k

/-- Property read with the JavaScript undefined default for a missing key. -/
def Obj.getJs (o : Obj) (k : String) : JsVal := (getL o.entries k).getD JsVal.undef

/-- Property assignment. -/
def Obj.set (o : Obj) (k : String) (v : JsVal) : Obj := ⟨setL o.entries k v⟩

/-- Property deletion. -/
def Obj.del (o : Obj) (k : String) : Obj := ⟨delL o.entries k⟩

/-- JavaScript string coercion of the atomic values, used for string
concatenation and for the url handed to the request library. -/
def jsToString : JsVal → String
  | .str s => s
  | .bool true => "true"
  | .bool false => "false"
  | .num n => toString n
  | .null => "null"
  | .undef => "undefined"

/-- Splitting of a character list at a separator, keeping empty segments,
as the JavaScript string split method does. -/
def splitChars (c : Char) : List Char → List (List Char)
  | [] => [[]]
  | x :: xs =>
    match splitChars c xs with
    | [] => [[]]
    | y :: ys => if x = c then [] :: y :: ys else (x :: y) :: ys

/-- JavaScript string split at a single-character separator. -/
def jsSplit (c : Char) (s : String) : List String :=
  (splitChars c s.toList).map (fun l => String.mk l)

/-- One CKAN state object as the mixins read it: base url origin, api key,
the ids of the resolved organization and dataset, the resolved resource
list, and the resource id list and dataset id used by the deletion code. -/
structure Context where
  origin : String
  key : String
  orgId : JsVal
  datasetId : JsVal
  resources : List Obj
  resourceIDs : List String
  datasetID : String
  deriving DecidableEq, Repr

/-- A context with every field blank, used to build concrete examples. -/
def Context.empty : Context := ⟨"", "", JsVal.undef, JsVal.undef, [], [], ""⟩

/-- The name-match filter both touch functions apply to the destination
resource list, from the source line
the filter of this.remote.resources on r.name === resource.name; strict
equality on possibly-missing names is equality of optional values. -/
def nameMatches (resources : List Obj) (resource : Obj) : List Obj :=
  resources.filter (fun r => decide (r.get "name" = resource.get "name"))

/-- A write request: action name and JSON body object. -/
structure WriteCall where
  action : String
  payload : Obj
  deriving DecidableEq, Repr

/-- One multipart form entry: a plain value or an uploaded blob carrying the
fetched body, its content type and a file name. -/
inductive FormEntry where
  | val (v : JsVal)
  | blob (content : String) (contentType : String) (filename : String)
  deriving DecidableEq, Repr

/-- First form entry appended under the given field name. -/
def formGet : List (String × FormEntry) → String → Option FormEntry
  | [], _ => none
  | p :: t, k => if p.1 = k then some p.2 else formGet t k

/-- The raw organization sub-object of a package_show result, with the
fields the normalizers read. -/
structure RawOrg where
  id : JsVal
  name : JsVal
  title : JsVal
  description : JsVal
  deriving DecidableEq, Repr

/-- The raw package_show result, with the fields the normalizers read;
raw resources are kept as whole objects since the normalizers project
them key by key. -/
structure RawPackage where
  id : JsVal
  name : JsVal
  title : JsVal
  notes : JsVal
  collection_method : JsVal
  excerpt : JsVal
  limitations : JsVal
  information_url : JsVal
  dataset_category : JsVal
  is_retired : JsVal
  refresh_rate : JsVal
  topics : JsVal
  owner_division : JsVal
  owner_section : JsVal
  owner_unit : JsVal
  owner_email : JsVal
  image_url : JsVal
  organization : RawOrg
  resources : List Obj
  deriving DecidableEq, Repr

/-- The content object getDataset builds: normalized organization, dataset
and resource list. -/
structure Content where
  organization : Obj
  dataset : Obj
  resources : List Obj
  deriving DecidableEq, Repr

/-- Projection of one raw resource onto the seven allow-listed keys, as both
getDataset variants perform it; a missing raw key yields the key bound to
undefined, as JavaScript destructuring does. -/
def projectResource (r : Obj) : Obj :=
  ⟨[("id", r.getJs "id"), ("name", r.getJs "name"),
    ("description", r.getJs "description"),
    ("datastore_active", r.getJs "datastore_active"), ("url", r.getJs "url"),
    ("extract_job", r.getJs "extract_job"), ("format", r.getJs "format")]⟩

/-- One datastore_search request: resource id, row limit, and the
include_total flag when the request carries it. -/
structure SearchCall where
  resource_id : JsVal
  limit : Nat
  include_total : Option Bool
  deriving DecidableEq, Repr

/-- One datastore_search response: field descriptors, reported total row
count, and records. -/
structure SearchResp where
  fields : List Obj
  total : Nat
  records : List Obj
  deriving DecidableEq, Repr

/-- The source datastore, as the function an oracle mapping each search
request to its response. -/
def Srv : Type := SearchCall → SearchResp

/-- The fields and records a tabular fetch hands onward. -/
structure DatastoreData where
  fields : List Obj
  records : List Obj
  deriving DecidableEq, Repr

/-- One datastore write issued against the destination: a datastore_delete
for a resource id, or a datastore_create whose body bundles an optional
resource object, an optional resource id, fields and records. -/
inductive DsCall where
  | del (resource_id : JsVal)
  | create (resource : Option Obj) (resource_id : Option JsVal)
      (fields : List Obj) (records : List Obj)
  deriving DecidableEq, Repr

/-- Remote request issued by the deletion and publish code: action name and
the id it carries. -/
structure Request where
  action : String
  id : String
  deriving DecidableEq, Repr

/-- Observable network events: a request is issued, and its response later
completes. -/
inductive Event where
  | issue (r : Request)
  | complete (r : Request)
  deriving DecidableEq, Repr

/-- The value a JavaScript function hands back to its caller: undefined, or
the promise of a request whose outcome the caller can then observe. -/
inductive JsRet where
  | undef
  | promiseOf (r : Request)
  deriving DecidableEq, Repr

/-- Statements of the deletion and publish bodies: fire a request as an
expression statement (its promise is dropped), await an arbitrary value, or
fire a request and await its promise. -/
inductive Stmt where
  | exprCall (r : Request)
  | awaitVal (v : JsRet)
  | awaitCall (r : Request)
  deriving DecidableEq, Repr

/-- Executions of a statement list: Run stmts pending trace holds when trace
is a possible event interleaving, with pending the requests issued but not
yet completed.  Firing a request appends it to pending; any pending request
may complete at any time; awaiting undefined does not block; awaiting the
promise of a request blocks until that request has completed; a run ends
once every statement has executed and every response has arrived. -/
inductive Run : List Stmt → List Request → List Event → Prop where
  | done : Run [] [] []
  | tick {stmts : List Stmt} {pending : List Request} {t : List Event}
      (r : Request) (hr : r ∈ pending)
      (h : Run stmts (pending.erase r) t) :
      Run stmts pending (Event.complete r :: t)
  | expr {stmts : List Stmt} {pending : List Request} {t : List Event}
      (r : Request)
      (h : Run stmts (pending ++ [r]) t) :
      Run (Stmt.exprCall r :: stmts) pending (Event.issue r :: t)
  | awaitUndef {stmts : List Stmt} {pending : List Request} {t : List Event}
      (h : Run stmts pending t) :
      Run (Stmt.awaitVal JsRet.undef :: stmts) pending t
  | awaitDone {stmts : List Stmt} {pending : List Request} {t : List Event}
      (r : Request) (hr : r ∉ pending)
      (h : Run stmts pending t) :
      Run (Stmt.awaitVal (JsRet.promiseOf r) :: stmts) pending t
  | awaitCall {stmts : List Stmt} {pending : List Request} {t : List Event}
      (r : Request)
      (h : Run (Stmt.awaitVal (JsRet.promiseOf r) :: stmts) (pending ++ [r]) t) :
      Run (Stmt.awaitCall r :: stmts) pending (Event.issue r :: t)

/-- A caller observes the outcome of a request only when the callee hands
back the promise of that request. -/
def observesFailure (ret : JsRet) (r : Request) : Prop := ret = JsRet.promiseOf r

namespace V1

/-- Lines 19-46, older variant: the normalization inside getDataset projects
the organization to name, title and description, and the dataset to its
sixteen allow-listed fields, both without id; resources keep their id. -/
def getDatasetContent (result : RawPackage) : Content where
  organization :=
    ⟨[("name", result.organization.name), ("title", result.organization.title),
      ("description", result.organization.description)]⟩
  dataset :=
    ⟨[("name", result.name), ("title", result.title), ("notes", result.notes),
      ("collection_method", result.collection_method),
      ("excerpt", result.excerpt), ("limitations", result.limitations),
      ("information_url", result.information_url),
      ("dataset_category", result.dataset_category),
      ("is_retired", result.is_retired), ("refresh_rate", result.refresh_rate),
      ("topics", result.topics), ("owner_division", result.owner_division),
      ("owner_section", result.owner_section),
      ("owner_unit", result.owner_unit), ("owner_email", result.owner_email),
      ("image_url", result.image_url)]⟩
  resources := result.resources.map projectResource

/-- Lines 47-64: createDataset mutates the dataset argument and posts it as
the package_create payload.  Line 48 sets owner_org from the context, line
49 sets private, line 51 appends a test suffix to the name, and line 52
overwrites owner_org with a hard-coded organization id. -/
def createDataset (context : Context) (dataset : Obj) : WriteCall :=
  let d1 := dataset.set "owner_org" context.orgId
  let d2 := d1.set "private" (JsVal.bool true)
  let d3 := d2.set "name" (JsVal.str (jsToString (d2.getJs "name") ++ "-test"))
  let d4 := d3.set "owner_org" (JsVal.str "e1d223a3-f1bd-4933-b49e-24786cee2af3")
  ⟨"package_create", d4⟩

/-- Lines 65-79: createResource deletes the resource id, sets package_id
from the context dataset and forces url_type to upload on the caller
object, then posts it as the resource_create payload. -/
def createResource (context : Context) (resource : Obj) : WriteCall :=
  let r1 := resource.del "id"
  let r2 := r1.set "package_id" context.datasetId
  let r3 := r2.set "url_type" (JsVal.str "upload")
  ⟨"resource_create", r3⟩

/-- The single datastore_create the older createDatastore posts, together
with the two search calls it issued against the source and the mutated
resource object (which is also the resource field of the posted body). -/
structure CreateDatastoreResult where
  searchCalls : List SearchCall
  resource : Obj
  fields : List Obj
  records : List Obj
  deriving DecidableEq, Repr

/-- Lines 80-129: createDatastore records the resource id, mutates the
resource argument (delete id and url, set package_id from the remote
dataset), issues datastore_search with limit 0 and include_total, issues it
again with limit equal to the reported total, deletes the _id key from
every record, drops the field descriptor whose id is _id, and posts one
datastore_create bundling the resource, fields and records. -/
def createDatastore (srv : Srv) (localCtx remote : Context) (resource : Obj) :
    CreateDatastoreResult :=
  let resourceID := resource.getJs "id"
  let r2 := ((resource.del "id").del "url").set "package_id" remote.datasetId
  let c1 : SearchCall := ⟨resourceID, 0, some true⟩
  let resp1 := srv c1
  let c2 : SearchCall := ⟨resourceID, resp1.total, none⟩
  let resp2 := srv c2
  ⟨[c1, c2], r2,
   resp1.fields.filter (fun row => !(decide (row.getJs "id" = JsVal.str "_id"))),
   resp2.records.map (fun rec => rec.del "_id")⟩

end V1

namespace V2

/-- Lines 213-269, newer variant: the normalization inside getDataset keeps
the organization id and the dataset id alongside the allow-listed fields;
resources keep their id. -/
def getDatasetContent (result : RawPackage) : Content where
  organization :=
    ⟨[("id", result.organization.id), ("name", result.organization.name),
      ("title", result.organization.title),
      ("description", result.organization.description)]⟩
  dataset :=
    ⟨[("id", result.id), ("name", result.name), ("title", result.title),
      ("notes", result.notes),
      ("collection_method", result.collection_method),
      ("excerpt", result.excerpt), ("limitations", result.limitations),
      ("information_url", result.information_url),
      ("dataset_category", result.dataset_category),
      ("is_retired", result.is_retired), ("refresh_rate", result.refresh_rate),
      ("topics", result.topics), ("owner_division", result.owner_division),
      ("owner_section", result.owner_section),
      ("owner_unit", result.owner_unit), ("owner_email", result.owner_email),
      ("image_url", result.image_url)]⟩
  resources := result.resources.map projectResource

/-- Lines 270-272: the trailing catch maps any package_show failure to null,
so the caller receives the normalized content on success and null (modelled
none) on failure. -/
def getDatasetResult (response : Option RawPackage) : Option Content :=
  match response with
  | some raw => some (getDatasetContent raw)
  | none => none

/-- Lines 319-341: touchDataset deletes id and sets private on the caller
object in create mode, writes the destination dataset id in update mode,
always writes owner_org from the destination context, and posts the mutated
dataset object under package_create or package_update. -/
def touchDataset (how : String) (context : Context) (dataset : Obj) : WriteCall :=
  let method := if how = "create" then "package_create" else "package_update"
  let d1 := if how = "create" then (dataset.del "id").set "private" (JsVal.bool true)
            else dataset.set "id" context.datasetId
  let d2 := d1.set "owner_org" context.orgId
  ⟨method, d2⟩

/-- The observable behaviour of touchResource: the url fetched for the file
body, the action name of the final post, and the multipart form. -/
structure TouchResourceResult where
  fetchURL : String
  method : String
  form : List (String × FormEntry)
  deriving DecidableEq, Repr

/-- Lines 351-392: touchResource filters the destination resources by name,
fetches the source resource url (net maps a url to the pair of response
body and content type), builds a form with name, format and an upload blob
named after the last url segment, then appends package_id from the remote
dataset when no name matched (resource_create) or the id of the first
matched destination resource (resource_update). -/
def touchResource (net : String → String × String) (thisRemote remote : Context)
    (resource : Obj) : TouchResourceResult :=
  let remoteResource := nameMatches thisRemote.resources resource
  let u := jsToString (resource.getJs "url")
  let data := net u
  let filename := (jsSplit (Char.ofNat 47) u).getLastD ""
  let base := [("name", FormEntry.val (resource.getJs "name")),
               ("format", FormEntry.val (resource.getJs "format")),
               ("upload", FormEntry.blob data.1 data.2 filename)]
  match remoteResource with
  | [] => ⟨u, "resource_create",
           base ++ [("package_id", FormEntry.val remote.datasetId)]⟩
  | r :: _ => ⟨u, "resource_update",
           base ++ [("id", FormEntry.val (r.getJs "id"))]⟩

/-- Lines 275-308: getDatastore issues datastore_search with limit 0 and
include_total, issues it again with limit equal to the reported total and
without the flag, deletes the _id key from every record and drops the field
descriptor whose id is _id; it returns the calls issued and the stripped
data. -/
def getDatastore (srv : Srv) (resourceID : JsVal) :
    List SearchCall × DatastoreData :=
  let c1 : SearchCall := ⟨resourceID, 0, some true⟩
  let resp1 := srv c1
  let c2 : SearchCall := ⟨resourceID, resp1.total, none⟩
  let resp2 := srv c2
  ([c1, c2],
   ⟨resp1.fields.filter (fun row => !(decide (row.getJs "id" = JsVal.str "_id"))),
    resp2.records.map (fun rec => rec.del "_id")⟩)

/-- The observable behaviour of touchDatastore: the search calls issued
against the source, the datastore writes issued against the destination in
order, and the mutated resource argument. -/
structure TouchDatastoreResult where
  searchCalls : List SearchCall
  remoteCalls : List DsCall
  arg : Obj
  deriving DecidableEq, Repr

/-- Lines 403-442: touchDatastore records the source resource id, filters
the destination resources by name, mutates the resource argument (delete id
and url, set package_id from the remote dataset), fetches the source
datastore, and then posts one datastore_create bundling the mutated
resource (no name match), or first posts datastore_delete for the recorded
source resource id and then datastore_create carrying that same id (name
match). -/
def touchDatastore (srv : Srv) (thisRemote remote : Context) (resource : Obj) :
    TouchDatastoreResult :=
  let resourceID := resource.getJs "id"
  let remoteResource := nameMatches thisRemote.resources resource
  let r2 := ((resource.del "id").del "url").set "package_id" remote.datasetId
  let p := getDatastore srv resourceID
  match remoteResource with
  | [] => ⟨p.1, [DsCall.create (some r2) none p.2.fields p.2.records], r2⟩
  | _ :: _ => ⟨p.1,
      [DsCall.del resourceID,
       DsCall.create none (some resourceID) p.2.fields p.2.records], r2⟩

/-- Lines 469-480: the deleteResource body is a single expression statement
firing resource_delete. -/
def deleteResource_body (resourceID : String) : List Stmt :=
  [Stmt.exprCall ⟨"resource_delete", resourceID⟩]

/-- Lines 469-480: deleteResource has no return statement, so the caller
receives undefined rather than the promise of the fired request. -/
def deleteResource_ret : JsRet := JsRet.undef

/-- Lines 449-467: deleteDataset loops over context.resourceIDs, calling
deleteResource and awaiting its return value, then awaits the
package_delete request directly. -/
def deleteDataset_body (resourceIDs : List String) (datasetID : String) : List Stmt :=
  (resourceIDs.map
    (fun rid => deleteResource_body rid ++ [Stmt.awaitVal deleteResource_ret])).flatten
    ++ [Stmt.awaitCall ⟨"package_delete", datasetID⟩]

/-- Lines 172-184 (and 130-142 in the older variant): the publishDataset
body is a single expression statement firing package_patch. -/
def publishDataset_body (datasetID : String) : List Stmt :=
  [Stmt.exprCall ⟨"package_patch", datasetID⟩]

/-- Lines 172-184: publishDataset has no return statement, so the caller
receives undefined rather than the promise of the fired request. -/
def publishDataset_ret : JsRet := JsRet.undef

end V2

/-- The fetch oracle used by the concrete examples: every url answers with
a fixed body and content type. -/
def netW : String → String × String := fun _ => ("BYTES", "text/csv")

/-- A concrete source resource carrying an id, a name, a url and a format. -/
def resourceW : Obj :=
  ⟨[("id", JsVal.str "src-1"), ("name", JsVal.str "trails.csv"),
    ("url", JsVal.str "http://src/files/a.csv"), ("format", JsVal.str "CSV")]⟩

/-- A destination context holding no resources. -/
def destNoMatch : Context := { Context.empty with datasetId := JsVal.str "pkg-7" }

/-- A destination context holding one resource named trails.csv with the
destination-assigned id dst-9. -/
def destMatch : Context :=
  { Context.empty with
    datasetId := JsVal.str "pkg-7"
    resources := [⟨[("id", JsVal.str "dst-9"), ("name", JsVal.str "trails.csv")]⟩] }

/-- A concrete destination context for the dataset writes. -/
def ctxDest : Context :=
  { Context.empty with
    orgId := JsVal.str "org-dest"
    datasetId := JsVal.str "dst-5" }

/-- A concrete source datastore: the zero-limit probe reports two rows and
two field descriptors (one of them the synthetic _id), and any non-zero
limit returns two records each carrying an _id key. -/
def srvW : Srv := fun c =>
  if c.limit = 0 then
    ⟨[⟨[("id", JsVal.str "_id")]⟩, ⟨[("id", JsVal.str "col")]⟩], 2, []⟩
  else
    ⟨[], 2, [⟨[("_id", JsVal.num 1), ("a", JsVal.str "x")]⟩,
             ⟨[("_id", JsVal.num 2), ("a", JsVal.str "y")]⟩]⟩

/-- The resource_delete request fired for resource r1. -/
def rdW : Request := ⟨"resource_delete", "r1"⟩

/-- The package_delete request fired for dataset d1. -/
def pdW : Request := ⟨"package_delete", "d1"⟩

/-- The package_patch request fired by publishDataset for dataset d1. -/
def patchReqW : Request := ⟨"package_patch", "d1"⟩

/-- A resource with url_type link, as the source catalog would report one
whose file lives behind an external url. -/
def linkResW : Obj :=
  ⟨[("id", JsVal.str "src-1"), ("name", JsVal.str "trails.csv"),
    ("url", JsVal.str "http://src/files/a.csv"),
    ("url_type", JsVal.str "link"), ("format", JsVal.str "CSV")]⟩

/-- A concrete raw organization. -/
def rawOrgW : RawOrg :=
  ⟨JsVal.str "o-1", JsVal.str "parks", JsVal.str "Parks", JsVal.str "desc"⟩

/-- A concrete raw package_show result with server-assigned id d-1. -/
def rawPkgW : RawPackage :=
  ⟨JsVal.str "d-1", JsVal.str "trails-2024", JsVal.str "Trails",
   JsVal.str "notes", JsVal.undef, JsVal.undef, JsVal.undef, JsVal.undef,
   JsVal.undef, JsVal.bool false, JsVal.undef, JsVal.undef, JsVal.undef,
   JsVal.undef, JsVal.undef, JsVal.undef, JsVal.undef, rawOrgW,
   [⟨[("id", JsVal.str "r-1"), ("name", JsVal.str "t.csv")]⟩]⟩

/-- A context whose dataset id and organization id already sit on the
object below. -/
def ctxFix : Context :=
  { Context.empty with
    orgId := JsVal.str "o1"
    datasetId := JsVal.str "d9" }

/-- A dataset object already carrying the destination id and owner_org. -/
def dsFix : Obj := ⟨[("id", JsVal.str "d9"), ("owner_org", JsVal.str "o1")]⟩

theorem getL_setL_self (l : List (String × JsVal)) (k : String) (v : JsVal) :
    getL (setL l k v) k = some v := by
  induction l with
  | nil => simp [getL, setL]
  | cons p t ih =>
    by_cases h : p.1 = k
    · simp [setL, getL, h]
    · simp [setL, getL, h, ih]

theorem getL_setL_ne (l : List (String × JsVal)) (k k' : String) (v : JsVal)
    (h : k' ≠ k) : getL (setL l k v) k' = getL l k' := by
  have h' : ¬ k = k' := Ne.symm h
  induction l with
  | nil => simp [getL, setL, h']
  | cons p t ih =>
    by_cases hp : p.1 = k
    · simp [setL, getL, hp, h']
    · by_cases h2 : p.1 = k'
      · simp [setL, getL, hp, h2, h]
      · simp [setL, getL, hp, h2, ih]

theorem getL_delL_self (l : List (String × JsVal)) (k : String) :
    getL (delL l k) k = none := by
  induction l with
  | nil => simp [getL, delL]
  | cons p t ih =>
    by_cases h : p.1 = k
    · simp [delL, h, ih]
    · simp [delL, getL, h, ih]

theorem getL_delL_ne (l : List (String × JsVal)) (k k' : String)
    (h : k' ≠ k) : getL (delL l k) k' = getL l k' := by
  have h' : ¬ k = k' := Ne.symm h
  induction l with
  | nil => simp [delL]
  | cons p t ih =>
    by_cases hp : p.1 = k
    · simp [delL, getL, hp, h', ih]
    · simp [delL, getL, hp, ih]

theorem Obj.get_set_self (o : Obj) (k : String) (v : JsVal) :
    (o.set k v).get k = some v := getL_setL_self o.entries k v

theorem Obj.get_set_ne (o : Obj) (k k' : String) (v : JsVal) (h : k' ≠ k) :
    (o.set k v).get k' = o.get k' := getL_setL_ne o.entries k k' v h

theorem Obj.get_del_self (o : Obj) (k : String) : (o.del k).get k = none :=
  getL_delL_self o.entries k

theorem Obj.get_del_ne (o : Obj) (k k' : String) (h : k' ≠ k) :
    (o.del k).get k' = o.get k' := getL_delL_ne o.entries k k' h

theorem Obj.ne_of_get_none_isSome {o o' : Obj} {k : String}
    (h : o'.get k = none) (hs : (o.get k).isSome) : o' ≠ o := by
  intro he
  rw [he] at h
  rw [h] at hs
  simp at hs

/-- Claim C1: touchResource decides create versus update by name-matching
the source resource against the destination resources: with no name match
the call is resource_create carrying package_id equal to the destination
dataset id and no id field; with a match it is resource_update carrying the
id of the first matched destination resource and no package_id field. -/
theorem c1_touchResource_upsert (net : String → String × String)
    (dest : Context) (resource : Obj) :
    (nameMatches dest.resources resource = [] →
      (V2.touchResource net dest dest resource).method = "resource_create" ∧
      formGet (V2.touchResource net dest dest resource).form "package_id"
        = some (FormEntry.val dest.datasetId) ∧
      formGet (V2.touchResource net dest dest resource).form "id" = none) ∧
    (∀ r rs, nameMatches dest.resources resource = r :: rs →
      (V2.touchResource net dest dest resource).method = "resource_update" ∧
      formGet (V2.touchResource net dest dest resource).form "id"
        = some (FormEntry.val (r.getJs "id")) ∧
      formGet (V2.touchResource net dest dest resource).form "package_id"
        = none) := by
  constructor
  · intro h
    simp [V2.touchResource, h, formGet]
  · intro r rs h
    simp [V2.touchResource, h, formGet]

/-- Witness for C1 at concrete inputs covering both branches. -/
theorem c1_touchResource_upsert_witness :
    ((V2.touchResource netW destNoMatch destNoMatch resourceW).method
        = "resource_create" ∧
      formGet (V2.touchResource netW destNoMatch destNoMatch resourceW).form
        "package_id" = some (FormEntry.val (JsVal.str "pkg-7")) ∧
      formGet (V2.touchResource netW destNoMatch destNoMatch resourceW).form
        "id" = none) ∧
    ((V2.touchResource netW destMatch destMatch resourceW).method
        = "resource_update" ∧
      formGet (V2.touchResource netW destMatch destMatch resourceW).form
        "id" = some (FormEntry.val (JsVal.str "dst-9")) ∧
      formGet (V2.touchResource netW destMatch destMatch resourceW).form
        "package_id" = none) :=
  ⟨(c1_touchResource_upsert netW destNoMatch resourceW).1 (by decide),
   (c1_touchResource_upsert netW destMatch resourceW).2
     ⟨[("id", JsVal.str "dst-9"), ("name", JsVal.str "trails.csv")]⟩ []
     (by decide)⟩

/-- Claim C2, code bug: at a concrete destination context, the older
createDataset posts owner_org equal to a hard-coded organization id rather
than the destination context organization id, and mutates the dataset name
with a test suffix; the newer touchDataset behaves as the claim states (id
omitted on create, destination dataset id written on update, owner_org from
the destination context in both modes). -/
theorem c2_createDataset_hardcoded_owner_org :
    ((V1.createDataset ctxDest ⟨[("name", JsVal.str "trails")]⟩).payload.get
        "owner_org" = some (JsVal.str "e1d223a3-f1bd-4933-b49e-24786cee2af3")) ∧
    JsVal.str "e1d223a3-f1bd-4933-b49e-24786cee2af3" ≠ ctxDest.orgId ∧
    ((V1.createDataset ctxDest ⟨[("name", JsVal.str "trails")]⟩).payload.get
        "name" = some (JsVal.str "trails-test")) ∧
    ((V2.touchDataset "create" ctxDest ⟨[("id", JsVal.str "src-3")]⟩).payload.get
        "id" = none) ∧
    ((V2.touchDataset "create" ctxDest ⟨[("id", JsVal.str "src-3")]⟩).payload.get
        "owner_org" = some (JsVal.str "org-dest")) ∧
    ((V2.touchDataset "update" ctxDest ⟨[]⟩).payload.get "id"
        = some (JsVal.str "dst-5")) ∧
    ((V2.touchDataset "update" ctxDest ⟨[]⟩).payload.get "owner_org"
        = some (JsVal.str "org-dest")) := by
  decide

/-- Claim C3, code bug: with one resource to delete, a valid execution of
the deleteDataset body issues package_delete before the resource_delete
response has arrived, because deleteResource drops its request promise and
hands undefined back to the await in the loop. -/
theorem c3_purge_issued_before_resource_completion :
    Run (V2.deleteDataset_body ["r1"] "d1") []
      [Event.issue rdW, Event.issue pdW, Event.complete pdW,
       Event.complete rdW] :=
  Run.expr rdW (Run.awaitUndef (Run.awaitCall pdW
    (Run.tick pdW (by decide)
      (Run.awaitDone pdW (by decide)
        (Run.tick rdW (by decide) Run.done)))))

/-- Claim C4, code bug: on the update path (destination resource dst-9
matched by name), touchDatastore issues datastore_delete followed by one
datastore_create, but both carry the SOURCE resource id src-1 rather than
the matched destination resource id dst-9, which the function computed and
never used. -/
theorem c4_datastore_calls_target_source_id :
    (V2.touchDatastore srvW destMatch destMatch resourceW).remoteCalls
      = [DsCall.del (JsVal.str "src-1"),
         DsCall.create none (some (JsVal.str "src-1"))
           [⟨[("id", JsVal.str "col")]⟩]
           [⟨[("a", JsVal.str "x")]⟩, ⟨[("a", JsVal.str "y")]⟩]] ∧
    JsVal.str "src-1" ≠ JsVal.str "dst-9" ∧
    (destMatch.resources.map (fun r => r.getJs "id")) = [JsVal.str "dst-9"] := by
  decide

/-- Claim C5, counterexample: a resource whose url_type is link still has
its url fetched and the fetched body re-uploaded as a blob, and the
submitted form carries no url field, contradicting the claim that link
resources move no bytes and have their url forwarded unchanged. -/
theorem c5_link_resource_bytes_fetched :
    (V2.touchResource netW destNoMatch destNoMatch linkResW).fetchURL
      = "http://src/files/a.csv" ∧
    formGet (V2.touchResource netW destNoMatch destNoMatch linkResW).form
      "upload" = some (FormEntry.blob "BYTES" "text/csv" "a.csv") ∧
    formGet (V2.touchResource netW destNoMatch destNoMatch linkResW).form
      "url" = none := by
  decide

/-- Claim C5 as amended: touchResource never consults url_type: for every
resource it fetches the resource url and appends the response body as an
upload blob named after the last url segment, and the form never carries a
url field; the older createResource moreover forces url_type to upload in
its metadata payload. -/
theorem c5_every_resource_uploaded (net : String → String × String)
    (dest : Context) (resource : Obj) :
    (V2.touchResource net dest dest resource).fetchURL
      = jsToString (resource.getJs "url") ∧
    formGet (V2.touchResource net dest dest resource).form "upload"
      = some (FormEntry.blob (net (jsToString (resource.getJs "url"))).1
          (net (jsToString (resource.getJs "url"))).2
          ((jsSplit (Char.ofNat 47) (jsToString (resource.getJs "url"))).getLastD "")) ∧
    formGet (V2.touchResource net dest dest resource).form "url" = none ∧
    (V1.createResource dest resource).payload.get "url_type"
      = some (JsVal.str "upload") := by
  refine ⟨?_, ?_, ?_, ?_⟩
  · cases h : nameMatches dest.resources resource with
    | nil => simp [V2.touchResource, h]
    | cons r rs => simp [V2.touchResource, h]
  · cases h : nameMatches dest.resources resource with
    | nil => simp [V2.touchResource, h, formGet]
    | cons r rs => simp [V2.touchResource, h, formGet]
  · cases h : nameMatches dest.resources resource with
    | nil => simp [V2.touchResource, h, formGet]
    | cons r rs => simp [V2.touchResource, h, formGet]
  · exact Obj.get_set_self _ _ _

/-- Claim C6, counterexample: the newer getDataset normalization keeps the
server-assigned ids on both the normalized organization and the normalized
dataset, so the create payload shape is not id-free at this step. -/
theorem c6_v2_normalization_keeps_id :
    (V2.getDatasetContent rawPkgW).organization.get "id"
      = some (JsVal.str "o-1") ∧
    (V2.getDatasetContent rawPkgW).dataset.get "id"
      = some (JsVal.str "d-1") := by
  decide

/-- Claim C6 as amended: the older getDataset variant strips id from the
normalized organization and dataset, while the newer variant keeps both
server-assigned ids (copied from the raw result); in the newer variant the
dataset id is instead deleted later, by touchDataset in create mode, before
the create payload is posted. -/
theorem c6_id_stripping_located (raw : RawPackage) (context : Context)
    (dataset : Obj) :
    (V1.getDatasetContent raw).organization.get "id" = none ∧
    (V1.getDatasetContent raw).dataset.get "id" = none ∧
    (V2.getDatasetContent raw).organization.get "id"
      = some raw.organization.id ∧
    (V2.getDatasetContent raw).dataset.get "id" = some raw.id ∧
    (V2.touchDataset "create" context dataset).payload.get "id" = none := by
  refine ⟨rfl, rfl, rfl, rfl, ?_⟩
  show (((dataset.del "id").set "private" (JsVal.bool true)).set "owner_org"
      context.orgId).get "id" = none
  rw [Obj.get_set_ne _ _ _ _ (by decide), Obj.get_set_ne _ _ _ _ (by decide),
    Obj.get_del_self]

/-- Claim C7: after the strip step, no record and no field descriptor
handed to datastore_create carries an _id key, both in the newer
getDatastore (whose output touchDatastore forwards) and in the older
createDatastore. -/
theorem c7_strip_synthetic_id (srv : Srv) (rid : JsVal)
    (localCtx remote : Context) (resource : Obj) :
    (∀ rec ∈ (V2.getDatastore srv rid).2.records, rec.get "_id" = none) ∧
    (∀ f ∈ (V2.getDatastore srv rid).2.fields,
      ¬ f.getJs "id" = JsVal.str "_id") ∧
    (∀ rec ∈ (V1.createDatastore srv localCtx remote resource).records,
      rec.get "_id" = none) ∧
    (∀ f ∈ (V1.createDatastore srv localCtx remote resource).fields,
      ¬ f.getJs "id" = JsVal.str "_id") := by
  refine ⟨?_, ?_, ?_, ?_⟩
  · intro rec hrec
    simp only [V2.getDatastore, List.mem_map] at hrec
    obtain ⟨r, _, rfl⟩ := hrec
    exact Obj.get_del_self _ _
  · intro f hf
    simp only [V2.getDatastore, List.mem_filter, Bool.not_eq_eq_eq_not,
      Bool.not_true, decide_eq_false_iff_not] at hf
    exact hf.2
  · intro rec hrec
    simp only [V1.createDatastore, List.mem_map] at hrec
    obtain ⟨r, _, rfl⟩ := hrec
    exact Obj.get_del_self _ _
  · intro f hf
    simp only [V1.createDatastore, List.mem_filter, Bool.not_eq_eq_eq_not,
      Bool.not_true, decide_eq_false_iff_not] at hf
    exact hf.2

/-- Witness for C7: a concrete stripped record and a concrete surviving
field descriptor from the concrete source datastore. -/
theorem c7_strip_synthetic_id_witness :
    (Obj.mk [("a", JsVal.str "x")]).get "_id" = none ∧
    ¬ (Obj.mk [("id", JsVal.str "col")]).getJs "id" = JsVal.str "_id" :=
  ⟨(c7_strip_synthetic_id srvW (JsVal.str "src-1") Context.empty Context.empty
      (Obj.mk [])).1 (Obj.mk [("a", JsVal.str "x")]) (by decide),
   (c7_strip_synthetic_id srvW (JsVal.str "src-1") Context.empty Context.empty
      (Obj.mk [])).2.1 (Obj.mk [("id", JsVal.str "col")]) (by decide)⟩

/-- Claim C8, code bug: publishDataset and deleteResource fire their
requests without returning the promise and hand undefined to the caller, so
a failure of package_patch or resource_delete is not observable anywhere
(silently swallowed); dataset resolution maps failure to null exactly as
the claim excepts. -/
theorem c8_swallowed_failures :
    V2.publishDataset_ret = JsRet.undef ∧
    ¬ observesFailure V2.publishDataset_ret patchReqW ∧
    V2.deleteResource_ret = JsRet.undef ∧
    ¬ observesFailure V2.deleteResource_ret rdW ∧
    V2.publishDataset_body "d1" = [Stmt.exprCall patchReqW] ∧
    V2.deleteResource_body "r1" = [Stmt.exprCall rdW] ∧
    V2.getDatasetResult none = none := by
  refine ⟨rfl, ?_, rfl, ?_, rfl, rfl, rfl⟩
  · exact fun h => nomatch h
  · exact fun h => nomatch h

/-- Claim C9: both tabular fetchers issue exactly two datastore_search
calls: the first with limit 0 and the include_total flag, the second with
limit equal to the total reported by the first response and without the
flag. -/
theorem c9_two_call_search_protocol (srv : Srv) (rid : JsVal)
    (localCtx remote : Context) (resource : Obj) :
    (V2.getDatastore srv rid).1
      = [⟨rid, 0, some true⟩,
         ⟨rid, (srv ⟨rid, 0, some true⟩).total, none⟩] ∧
    (V1.createDatastore srv localCtx remote resource).searchCalls
      = [⟨resource.getJs "id", 0, some true⟩,
         ⟨resource.getJs "id",
          (srv ⟨resource.getJs "id", 0, some true⟩).total, none⟩] :=
  ⟨rfl, rfl⟩

/-- Claim C10, counterexample: a touchDataset update call whose argument
already carries the destination dataset id and owner_org leaves the caller
object entirely unchanged and never writes private, so it is not true that
every call observably changes the argument, nor that the dataset writes
always write private. -/
theorem c10_update_call_without_observable_change :
    (V2.touchDataset "update" ctxFix dsFix).payload = dsFix ∧
    (V2.touchDataset "update" ctxFix dsFix).payload.get "private" = none := by
  decide

/-- Claim C10 as amended: each upsert operation mutates the caller-supplied
object in place: createResource deletes id and writes package_id and
url_type on the given resource; createDatastore and touchDatastore delete
id and url and write package_id; touchDataset always writes owner_org, and
in create mode deletes id and writes private while in update mode it writes
the destination dataset id instead; the caller object is observably changed
by every call whose argument still carries an id key, though a call whose
writes only restate existing field values leaves the object unchanged. -/
theorem c10_in_place_mutation (srv : Srv) (context remote : Context)
    (resource dataset : Obj) :
    ((V1.createResource context resource).payload.get "id" = none ∧
     (V1.createResource context resource).payload.get "package_id"
        = some context.datasetId ∧
     (V1.createResource context resource).payload.get "url_type"
        = some (JsVal.str "upload") ∧
     ((resource.get "id").isSome →
        (V1.createResource context resource).payload ≠ resource)) ∧
    ((V1.createDatastore srv context remote resource).resource.get "id"
        = none ∧
     (V1.createDatastore srv context remote resource).resource.get "url"
        = none ∧
     (V1.createDatastore srv context remote resource).resource.get
        "package_id" = some remote.datasetId ∧
     ((resource.get "id").isSome →
        (V1.createDatastore srv context remote resource).resource ≠ resource)) ∧
    ((V2.touchDatastore srv remote remote resource).arg.get "id" = none ∧
     (V2.touchDatastore srv remote remote resource).arg.get "url" = none ∧
     (V2.touchDatastore srv remote remote resource).arg.get "package_id"
        = some remote.datasetId ∧
     ((resource.get "id").isSome →
        (V2.touchDatastore srv remote remote resource).arg ≠ resource)) ∧
    ((V2.touchDataset "create" context dataset).payload.get "id" = none ∧
     (V2.touchDataset "create" context dataset).payload.get "private"
        = some (JsVal.bool true) ∧
     (V2.touchDataset "create" context dataset).payload.get "owner_org"
        = some context.orgId ∧
     ((dataset.get "id").isSome →
        (V2.touchDataset "create" context dataset).payload ≠ dataset)) ∧
    ((V2.touchDataset "update" context dataset).payload.get "id"
        = some context.datasetId ∧
     (V2.touchDataset "update" context dataset).payload.get "owner_org"
        = some context.orgId) := by
  have hcr : (V1.createResource context resource).payload
      = ((resource.del "id").set "package_id" context.datasetId).set
          "url_type" (JsVal.str "upload") := rfl
  have hcd : (V1.createDatastore srv context remote resource).resource
      = ((resource.del "id").del "url").set "package_id" remote.datasetId := rfl
  have htd : (V2.touchDatastore srv remote remote resource).arg
      = ((resource.del "id").del "url").set "package_id" remote.datasetId := by
    cases h : nameMatches remote.resources resource with
    | nil => simp [V2.touchDatastore, h]
    | cons r rs => simp [V2.touchDatastore, h]
  have htc : (V2.touchDataset "create" context dataset).payload
      = ((dataset.del "id").set "private" (JsVal.bool true)).set "owner_org"
          context.orgId := rfl
  have htu : (V2.touchDataset "update" context dataset).payload
      = (dataset.set "id" context.datasetId).set "owner_org"
          context.orgId := rfl
  have hcr_id : (V1.createResource context resource).payload.get "id" = none := by
    rw [hcr, Obj.get_set_ne _ _ _ _ (by decide), Obj.get_set_ne _ _ _ _ (by decide),
      Obj.get_del_self]
  have hmut_id : (((resource.del "id").del "url").set "package_id"
      remote.datasetId).get "id" = none := by
    rw [Obj.get_set_ne _ _ _ _ (by decide), Obj.get_del_ne _ _ _ (by decide),
      Obj.get_del_self]
  have htc_id : (V2.touchDataset "create" context dataset).payload.get "id"
      = none := by
    rw [htc, Obj.get_set_ne _ _ _ _ (by decide), Obj.get_set_ne _ _ _ _ (by decide),
      Obj.get_del_self]
  refine ⟨⟨hcr_id, ?_, ?_, ?_⟩, ⟨?_, ?_, ?_, ?_⟩, ⟨?_, ?_, ?_, ?_⟩,
    ⟨htc_id, ?_, ?_, ?_⟩, ?_, ?_⟩
  · rw [hcr, Obj.get_set_ne _ _ _ _ (by decide), Obj.get_set_self]
  · rw [hcr, Obj.get_set_self]
  · intro hs
    exact Obj.ne_of_get_none_isSome hcr_id hs
  · rw [hcd]; exact hmut_id
  · rw [hcd, Obj.get_set_ne _ _ _ _ (by decide), Obj.get_del_self]
  · rw [hcd, Obj.get_set_self]
  · intro hs
    exact Obj.ne_of_get_none_isSome (by rw [hcd]; exact hmut_id) hs
  · rw [htd]; exact hmut_id
  · rw [htd, Obj.get_set_ne _ _ _ _ (by decide), Obj.get_del_self]
  · rw [htd, Obj.get_set_self]
  · intro hs
    exact Obj.ne_of_get_none_isSome (by rw [htd]; exact hmut_id) hs
  · rw [htc, Obj.get_set_ne _ _ _ _ (by decide), Obj.get_set_self]
  · rw [htc, Obj.get_set_self]
  · intro hs
    exact Obj.ne_of_get_none_isSome htc_id hs
  · rw [htu, Obj.get_set_ne _ _ _ _ (by decide), Obj.get_set_self]
  · rw [htu, Obj.get_set_self]

/-- Witness for the amended C10 at concrete inputs whose resource and
dataset arguments still carry an id key. -/
theorem c10_in_place_mutation_witness :
    (V1.createResource ctxDest resourceW).payload ≠ resourceW ∧
    (V1.createDatastore srvW ctxDest destMatch resourceW).resource
      ≠ resourceW ∧
    (V2.touchDatastore srvW destMatch destMatch resourceW).arg ≠ resourceW ∧
    (V2.touchDataset "create" ctxDest dsFix).payload ≠ dsFix := by
  obtain ⟨h1, h2, h3, h4, h5⟩ :=
    c10_in_place_mutation srvW ctxDest destMatch resourceW dsFix
  exact ⟨h1.2.2.2 (by decide), h2.2.2.2 (by decide), h3.2.2.2 (by decide),
    h4.2.2.2 (by decide)⟩

end CkanJS
